import Mathlib

/-!
Verification of the token-service data-shaping logic of `gem-token-api`.

The service (`TokenService` in the repository) is a thin pipeline over two
upstream HTTP dependencies: a market-data provider (CoinGecko) and a
text-generation API (OpenAI chat completions).  All of its logic is JavaScript
field extraction with truthiness-based default substitution (`a || b`,
optional chaining `a?.b`), plus catch-to-fallback error handling.

We embed the JavaScript dynamic values the service manipulates as the
inductive type `JsVal` (undefined, null, numbers, strings, arrays, objects as
ordered key-value lists), define the JS primitives the source uses
(member access, optional chaining, truthiness, `||`, `toUpperCase`,
`Array.prototype.slice(-24)`, template-literal interpolation,
`JSON.stringify`), and transliterate the service's functions over them:

  * `formatAiAgentToken`  : the list-view normalizer;
  * `formatTokenDetails`  : the detail-view normalizer;
  * `fetchAiAgentTokens`  : the list operation with its catch-to-empty;
  * `fetchTokenDetails`   : the detail fetch with its catch-to-null;
  * `buildPrompt`         : the user-message template of `getAiAnalysis`;
  * `getAiAnalysis`       : the commentary generator with its catch-to-fallback;
  * `getTokenDetails`     : the detail operation attaching `ai_insight`.

Outcomes of the outbound HTTP calls are parameters: `Except Unit JsVal` for
the market-data transport (error = the axios promise rejected), and
`GenOutcome` for the completion call (error = the call threw or the response
shape was malformed; ok carries `choices[0].message.content`).

JavaScript numbers are carried as `Int`: the service performs no arithmetic
on them, it only tests truthiness (where only zero matters) and passes them
through, so `Int` is a faithful carrier for every value the claims touch.
-/

/-- A JavaScript runtime value as the service manipulates them: `undefined`,
`null`, a number, a string, an array, or an object (an ordered list of
key-value fields, as produced by an object literal). -/
inductive JsVal where
  | undef : JsVal
  | jnull : JsVal
  | num : Int → JsVal
  | str : String → JsVal
  | arr : List JsVal → JsVal
  | obj : List (String × JsVal) → JsVal
deriving Repr

mutual

/-- Decidable equality of JavaScript values (written by hand: automatic
derivation does not support this nested inductive). -/
def JsVal.decEq : (a b : JsVal) → Decidable (a = b)
  | .undef, .undef => .isTrue rfl
  | .jnull, .jnull => .isTrue rfl
  | .num a, .num b =>
      match Int.decEq a b with
      | .isTrue h => .isTrue (h ▸ rfl)
      | .isFalse h => .isFalse fun hh => h (JsVal.num.inj hh)
  | .str a, .str b =>
      match String.decEq a b with
      | .isTrue h => .isTrue (h ▸ rfl)
      | .isFalse h => .isFalse fun hh => h (JsVal.str.inj hh)
  | .arr xs, .arr ys =>
      match JsVal.decEqList xs ys with
      | .isTrue h => .isTrue (h ▸ rfl)
      | .isFalse h => .isFalse fun hh => h (JsVal.arr.inj hh)
  | .obj fs, .obj gs =>
      match JsVal.decEqFields fs gs with
      | .isTrue h => .isTrue (h ▸ rfl)
      | .isFalse h => .isFalse fun hh => h (JsVal.obj.inj hh)
  | .undef, .jnull | .undef, .num _ | .undef, .str _ | .undef, .arr _
  | .undef, .obj _ | .jnull, .undef | .jnull, .num _ | .jnull, .str _
  | .jnull, .arr _ | .jnull, .obj _ | .num _, .undef | .num _, .jnull
  | .num _, .str _ | .num _, .arr _ | .num _, .obj _ | .str _, .undef
  | .str _, .jnull | .str _, .num _ | .str _, .arr _ | .str _, .obj _
  | .arr _, .undef | .arr _, .jnull | .arr _, .num _ | .arr _, .str _
  | .arr _, .obj _ | .obj _, .undef | .obj _, .jnull | .obj _, .num _
  | .obj _, .str _ | .obj _, .arr _ => .isFalse fun hh => JsVal.noConfusion hh

/-- Decidable equality of value lists, mutually with `JsVal.decEq`. -/
def JsVal.decEqList : (xs ys : List JsVal) → Decidable (xs = ys)
  | [], [] => .isTrue rfl
  | [], _ :: _ => .isFalse fun hh => List.noConfusion hh
  | _ :: _, [] => .isFalse fun hh => List.noConfusion hh
  | x :: xs, y :: ys =>
      match JsVal.decEq x y with
      | .isFalse h => .isFalse fun hh => h (List.cons.inj hh).1
      | .isTrue h1 =>
        match JsVal.decEqList xs ys with
        | .isTrue h2 => .isTrue (by rw [h1, h2])
        | .isFalse h2 => .isFalse fun hh => h2 (List.cons.inj hh).2

/-- Decidable equality of field lists, mutually with `JsVal.decEq`. -/
def JsVal.decEqFields : (fs gs : List (String × JsVal)) → Decidable (fs = gs)
  | [], [] => .isTrue rfl
  | [], _ :: _ => .isFalse fun hh => List.noConfusion hh
  | _ :: _, [] => .isFalse fun hh => List.noConfusion hh
  | (k1, v1) :: fs, (k2, v2) :: gs =>
      match String.decEq k1 k2 with
      | .isFalse h => .isFalse fun hh =>
          h (congrArg Prod.fst (List.cons.inj hh).1)
      | .isTrue hk =>
        match JsVal.decEq v1 v2 with
        | .isFalse h => .isFalse fun hh =>
            h (congrArg Prod.snd (List.cons.inj hh).1)
        | .isTrue hv =>
          match JsVal.decEqFields fs gs with
          | .isTrue hs => .isTrue (by rw [hk, hv, hs])
          | .isFalse h => .isFalse fun hh => h (List.cons.inj hh).2

end

instance : DecidableEq JsVal := JsVal.decEq

namespace JsVal

/-- First-match lookup in an object's field list; `undef` when the key is
absent (JavaScript member access on an object without that property). -/
def lookupField : List (String × JsVal) → String → JsVal
  | [], _ => .undef
  | (k0, v) :: rest, k => if k0 = k then v else lookupField rest k

/-- JavaScript member access `v.k` for the values on which it does not throw:
property lookup on objects; `undef` on numbers, strings and arrays (none of
the keys the service reads is a built-in property of those).  Access on
`undefined`/`null` throws in JavaScript; the embedding returns `undef` there
and the theorems that quantify over upstream data restrict to inputs that
avoid those throwing reads. -/
def getField : JsVal → String → JsVal
  | .obj fs, k => lookupField fs k
  | _, _ => (.undef)

/-- Optional chaining `v?.k`: `undefined` when `v` is nullish, member access
otherwise. -/
def optChain (v : JsVal) (k : String) : JsVal :=
  match v with
  | .undef => .undef
  | .jnull => .undef
  | w => w.getField k

/-- JavaScript truthiness: `undefined`, `null`, `0` and `""` are falsy;
every other number and string, and every array and object, is truthy. -/
def truthy : JsVal → Bool
  | .undef => false
  | .jnull => false
  | .num n => n != 0
  | .str s => s != ""
  | .arr _ => true
  | .obj _ => true

/-- The JavaScript `a || b` operator: `a` when truthy, else `b`. -/
def jsOr (a b : JsVal) : JsVal :=
  if a.truthy then a else b

/-- Character-wise upper-casing, the effect of `String.prototype.toUpperCase`
on the ASCII symbols the provider serves. -/
def upperStr (s : String) : String :=
  String.mk (s.data.map Char.toUpper)

/-- The call `v?.toUpperCase()`: `undefined` when `v` is nullish, the
upper-cased string when `v` is a string.  On a non-string non-nullish value
JavaScript throws; the embedding returns `undef` there and theorems restrict
upstream `symbol` fields to nullish-or-string shapes. -/
def upperCall : JsVal → JsVal
  | .str s => .str (upperStr s)
  | _ => (.undef)

/-- The call `v.slice (-24)` on an array: its last 24 elements (all of them
when it is shorter).  Applied through `?.` the nullish cases give `undef`;
other shapes would throw in JavaScript and theorems exclude them. -/
def sliceLast24 : JsVal → JsVal
  | .arr xs => .arr (xs.drop (xs.length - 24))
  | _ => (.undef)

/-- Appending a field to an object literal by spread, `\x7b...t, k: v\x7d`;
the service only spreads objects whose field list does not contain `k`. -/
def addField (t : JsVal) (k : String) (v : JsVal) : JsVal :=
  match t with
  | .obj fs => .obj (fs ++ [(k, v)])
  | _ => .obj [(k, v)]

/-- The keys of an object value, in order. -/
def objKeys : JsVal → List String
  | .obj fs => fs.map Prod.fst
  | _ => []

mutual

/-- Template-literal interpolation of a value (the JavaScript abstract
ToString): `undefined`/`null` print their names, numbers and strings print
themselves, arrays print their elements comma-joined with nullish elements
blank, objects print as object-Object. -/
def interp : JsVal → String
  | .undef => "undefined"
  | .jnull => "null"
  | .num n => toString n
  | .str s => s
  | .arr xs => interpList xs
  | .obj _ => "[object Object]"

/-- Comma-joined element rendering used by array ToString. -/
def interpList : List JsVal → String
  | [] => ""
  | [x] => interpElem x
  | x :: xs => interpElem x ++ "," ++ interpList xs

/-- One array element under array ToString: nullish elements render empty. -/
def interpElem : JsVal → String
  | .undef => ""
  | .jnull => ""
  | v => interp v

end

mutual

/-- The string interpolated for `JSON.stringify v` inside a template literal:
arrays and objects serialize as JSON, `undefined` at top level stringifies to
the value `undefined`, which the template then renders as "undefined". -/
def jsonStr : JsVal → String
  | .undef => "undefined"
  | .jnull => "null"
  | .num n => toString n
  | .str s => "\"" ++ s ++ "\""
  | .arr xs => "[" ++ jsonStrElems xs ++ "]"
  | .obj fs => "\x7b" ++ jsonStrFields fs ++ "\x7d"

/-- JSON serialization of array elements (undefined elements become null). -/
def jsonStrElems : List JsVal → String
  | [] => ""
  | [x] => jsonStrElem x
  | x :: xs => jsonStrElem x ++ "," ++ jsonStrElems xs

/-- One array element under JSON serialization. -/
def jsonStrElem : JsVal → String
  | .undef => "null"
  | v => jsonStr v

/-- JSON serialization of object fields (fields with undefined values are
omitted). -/
def jsonStrFields : List (String × JsVal) → String
  | [] => ""
  | [(k, v)] => jsonStrField k v
  | (k, v) :: fs => jsonStrField k v ++ "," ++ jsonStrFields fs

/-- One object field under JSON serialization. -/
def jsonStrField (k : String) (v : JsVal) : String :=
  match v with
  | .undef => ""
  | w => "\"" ++ k ++ "\":" ++ jsonStr w

end

end JsVal

open JsVal

/-- Transliteration of `formatAiAgentToken` (the list-view normalizer): the
object literal it returns, field by field in source order, with `a || b`
as `jsOr` and `token.symbol?.toUpperCase()` as `upperCall`. -/
def formatAiAgentToken (token : JsVal) : JsVal :=
  .obj [
    ("id", token.getField "id"),
    ("name", token.getField "name"),
    ("symbol", jsOr (upperCall (token.getField "symbol")) (.str "N/A")),
    ("image", jsOr (token.getField "image") (.str "")),
    ("current_price", jsOr (token.getField "current_price") (.num 0)),
    ("market_cap", jsOr (token.getField "market_cap") (.num 0)),
    ("market_cap_rank", jsOr (token.getField "market_cap_rank") .jnull),
    ("total_volume", jsOr (token.getField "total_volume") (.num 0)),
    ("high_24h", jsOr (token.getField "high_24h") (.num 0)),
    ("low_24h", jsOr (token.getField "low_24h") (.num 0)),
    ("price_change_24h", jsOr (token.getField "price_change_24h") (.num 0)),
    ("price_change_percentage_24h",
      jsOr (token.getField "price_change_percentage_24h") (.num 0)),
    ("circulating_supply", jsOr (token.getField "circulating_supply") (.num 0)),
    ("total_supply", jsOr (token.getField "total_supply") (.num 0)),
    ("max_supply", jsOr (token.getField "max_supply") .jnull),
    ("ath", jsOr (token.getField "ath") (.num 0)),
    ("ath_change_percentage",
      jsOr (token.getField "ath_change_percentage") (.num 0)),
    ("atl", jsOr (token.getField "atl") (.num 0)),
    ("atl_change_percentage",
      jsOr (token.getField "atl_change_percentage") (.num 0)),
    ("last_updated", jsOr (token.getField "last_updated") (.str "N/A"))
  ]

/-- Transliteration of `formatTokenDetails` (the detail-view normalizer):
`token.market_data?.x?.y` chains become nested `optChain`, the sparkline
slice `token.market_data?.sparkline_7d?.price?.slice(-24) || []` becomes
`jsOr (sliceLast24 ...) (.arr [])`. -/
def formatTokenDetails (token : JsVal) : JsVal :=
  .obj [
    ("id", token.getField "id"),
    ("name", token.getField "name"),
    ("symbol", jsOr (upperCall (token.getField "symbol")) (.str "N/A")),
    ("image", .obj [
      ("thumb", jsOr (optChain (token.getField "image") "thumb") (.str "")),
      ("small", jsOr (optChain (token.getField "image") "small") (.str "")),
      ("large", jsOr (optChain (token.getField "image") "large") (.str ""))]),
    ("market_cap_rank", jsOr (token.getField "market_cap_rank") .jnull),
    ("current_price",
      jsOr (optChain (optChain (token.getField "market_data") "current_price") "usd") (.num 0)),
    ("market_cap",
      jsOr (optChain (optChain (token.getField "market_data") "market_cap") "usd") (.num 0)),
    ("total_volume",
      jsOr (optChain (optChain (token.getField "market_data") "total_volume") "usd") (.num 0)),
    ("price_change_24h",
      jsOr (optChain (token.getField "market_data") "price_change_24h") (.num 0)),
    ("price_change_percentage_24h",
      jsOr (optChain (token.getField "market_data") "price_change_percentage_24h") (.num 0)),
    ("circulating_supply",
      jsOr (optChain (token.getField "market_data") "circulating_supply") (.num 0)),
    ("total_supply",
      jsOr (optChain (token.getField "market_data") "total_supply") (.num 0)),
    ("max_supply",
      jsOr (optChain (token.getField "market_data") "max_supply") .jnull),
    ("ath",
      jsOr (optChain (optChain (token.getField "market_data") "ath") "usd") (.num 0)),
    ("ath_change_percentage",
      jsOr (optChain (token.getField "market_data") "ath_change_percentage") (.num 0)),
    ("ath_date",
      jsOr (optChain (token.getField "market_data") "ath_date") (.str "N/A")),
    ("atl",
      jsOr (optChain (optChain (token.getField "market_data") "atl") "usd") (.num 0)),
    ("atl_change_percentage",
      jsOr (optChain (token.getField "market_data") "atl_change_percentage") (.num 0)),
    ("atl_date",
      jsOr (optChain (token.getField "market_data") "atl_date") (.str "N/A")),
    ("last_updated", jsOr (token.getField "last_updated") (.str "N/A")),
    ("chart_data",
      jsOr (sliceLast24 (optChain (optChain (token.getField "market_data") "sparkline_7d") "price"))
        (.arr []))
  ]

/-- The fixed developer-role instruction of the completion request sent by
`getAiAnalysis`. -/
def promptSystem : String :=
  "You are a professional cryptocurrency analyst. Provide direct, data-driven analysis and a clear investment recommendation based on technical and market indicators. Be concise and avoid generic introductions."

/-- The user-message template of `getAiAnalysis` up to (and including) the
bullet dash that precedes the 24h High/Low entry, with every interpolated
read `token.x` rendered through template-literal ToString. -/
def promptPre (token : JsVal) : String :=
  "\n      Analyze the AI-powered token **" ++ interp (token.getField "name") ++
  " (" ++ interp (token.getField "symbol") ++
  ")** and provide a **concise investment recommendation**.\n      \n      📊 **Market Overview**:\n      - **Current Price**: $" ++
  interp (token.getField "current_price") ++
  "\n      - **Market Cap**: $" ++ interp (token.getField "market_cap") ++
  "\n      - **Market Cap Rank**: #" ++ interp (token.getField "market_cap_rank") ++
  "\n      - **Total Volume**: $" ++ interp (token.getField "total_volume") ++
  "\n      - "

/-- The 24h High/Low entry of the user-message template: it reads
`token.high_24h` and `token.low_24h` from the record it is given. -/
def promptHighLow (token : JsVal) : String :=
  "**24h High/Low**: $" ++ interp (token.getField "high_24h") ++
  " / $" ++ interp (token.getField "low_24h")

/-- The remainder of the user-message template after the 24h High/Low entry,
including the `JSON.stringify(token.chart_data)` price-trend line. -/
def promptPost (token : JsVal) : String :=
  "\n      - **24h Price Change**: $" ++ interp (token.getField "price_change_24h") ++
  " (" ++ interp (token.getField "price_change_percentage_24h") ++
  "%)\n      - **ATH / ATL**: $" ++ interp (token.getField "ath") ++
  " (" ++ interp (token.getField "ath_change_percentage") ++
  "%) / $" ++ interp (token.getField "atl") ++
  " (" ++ interp (token.getField "atl_change_percentage") ++
  "%)\n      - **Circulating Supply**: " ++ interp (token.getField "circulating_supply") ++
  "\n      - **Total Supply**: " ++ interp (token.getField "total_supply") ++
  "\n      - **24h Price Trend**: " ++ jsonStr (token.getField "chart_data") ++
  "\n      \n      ### **💡 Investment Recommendation**\n      1. **Short-Term Outlook (Next 7 Days)**: 🚀 **Bullish** or 📉 **Bearish**? Why?\n      2. **Support & Resistance Levels**: Where are the key buy & sell zones?\n      3. **Best Buy Zone**: What price range would be ideal for entry?\n      4. **Best Sell Zone**: Where should an investor take profit?\n      5. **Risk Factor**: What risks should be considered?\n      6. **Final Verdict**: **Buy, Hold, or Avoid?**\n      \n      Provide specific numbers and avoid speculation.\n                  "

/-- The full user-message prompt `getAiAnalysis` interpolates from the token
record it is given. -/
def buildPrompt (token : JsVal) : String :=
  promptPre token ++ promptHighLow token ++ promptPost token

/-- Outcome of the completion call in `getAiAnalysis`, as observed at the
line `return response.choices[0].message.content`: `ok content` when the
call returned and the chain of accesses yielded `content` (a string, or null
as the API type allows); `err` when the call threw or the response shape was
malformed (for instance `choices` empty, making `.message` throw) — every
such path lands in the catch block. -/
inductive GenOutcome where
  | ok : JsVal → GenOutcome
  | err : GenOutcome
deriving Repr, DecidableEq

/-- Transliteration of `getAiAnalysis`: builds the prompt from the record's
fields, sends it (`complete` models the completion API as a function of the
user prompt), returns the first candidate's content, and maps every failure
to the fixed string "AI analysis unavailable." in the catch block. -/
def getAiAnalysis (token : JsVal) (complete : String → GenOutcome) : JsVal :=
  match complete (buildPrompt token) with
  | .ok content => content
  | .err => .str "AI analysis unavailable."

/-- Transliteration of `fetchAiAgentTokens`: on transport failure the catch
block returns `[]`; on success `response.data.map(this.formatAiAgentToken)`
maps the normalizer over the parsed array, and a non-array body (whose
`.map` would throw inside the `try`) also lands in the catch and yields
`[]`. -/
def fetchAiAgentTokens (resp : Except Unit JsVal) : List JsVal :=
  match resp with
  | .error _ => []
  | .ok (.arr items) => items.map formatAiAgentToken
  | .ok _ => []

/-- Transliteration of `fetchTokenDetails`: on transport failure (network
error, not-found, any rejected promise) the catch block returns `null`;
on success the body is normalized by `formatTokenDetails`.  The identifier
only selects the URL requested; the transport outcome for it is the `resp`
parameter. -/
def fetchTokenDetails (tokenId : String) (resp : Except Unit JsVal) : Option JsVal :=
  match resp with
  | .error _ => none
  | .ok data => some (formatTokenDetails data)

/-- Transliteration of `getTokenDetails`, instrumented with a flag recording
whether `getAiAnalysis` was invoked: a null fetch returns `(null, false)`
without reaching the generator; otherwise the generator runs and its result
(or, when falsy, the fallback "No AI insight available.") is attached under
`ai_insight` by object spread. -/
def getTokenDetailsTr (tokenId : String) (resp : Except Unit JsVal)
    (complete : String → GenOutcome) : Option JsVal × Bool :=
  match fetchTokenDetails tokenId resp with
  | none => (none, false)
  | some token =>
      (some (token.addField "ai_insight"
        (jsOr (getAiAnalysis token complete) (.str "No AI insight available."))),
       true)

/-- The value `getTokenDetails` returns to its caller (the first component
of the instrumented transliteration). -/
def getTokenDetails (tokenId : String) (resp : Except Unit JsVal)
    (complete : String → GenOutcome) : Option JsVal :=
  (getTokenDetailsTr tokenId resp complete).1

/-- Whether a value is an object (the shape of every JSON body the service
actually receives; on any other shape the normalizers' plain member reads
could throw in JavaScript). -/
def isObj : JsVal → Bool
  | .obj _ => true
  | _ => false

/-- Shapes of an upstream `symbol` field on which `symbol?.toUpperCase()`
does not throw: absent, null, or a string. -/
def strLike : JsVal → Bool
  | .undef => true
  | .jnull => true
  | .str _ => true
  | _ => false

/-- The value reached by `token.market_data?.sparkline_7d?.price`. -/
def sparkVal (token : JsVal) : JsVal :=
  optChain (optChain (token.getField "market_data") "sparkline_7d") "price"

/-- Shapes of the sparkline price field on which `price?.slice(-24)` does
not throw: absent, null, or an array. -/
def arrLike : JsVal → Bool
  | .undef => true
  | .jnull => true
  | .arr _ => true
  | _ => false

/-- Well-formed upstream list record: an object whose `symbol` field (if
any) is a string — the shapes on which `formatAiAgentToken` runs without
throwing in JavaScript, hence the records on which the embedding models it. -/
def wfListToken (token : JsVal) : Bool :=
  isObj token && strLike (token.getField "symbol")

/-- Well-formed upstream detail record: an object whose `symbol` field is
nullish-or-string and whose sparkline price chain is nullish-or-array — the
shapes on which `formatTokenDetails` runs without throwing in JavaScript. -/
def wfDetailToken (token : JsVal) : Bool :=
  isObj token && strLike (token.getField "symbol") && arrLike (sparkVal token)

theorem lookupField_append_of_ne (fs : List (String × JsVal)) (k k2 : String)
    (v : JsVal) (h : k ≠ k2) :
    lookupField (fs ++ [(k2, v)]) k = lookupField fs k := by
  induction fs with
  | nil =>
    simp only [List.nil_append, lookupField]
    rw [if_neg (fun hh => h hh.symm)]
  | cons p rest ih =>
    obtain ⟨k0, w⟩ := p
    by_cases hk : k0 = k
    · simp [lookupField, hk]
    · simp [lookupField, hk, ih]

theorem getField_addField_of_ne (t : JsVal) (k k2 : String) (v : JsVal)
    (ht : isObj t = true) (h : k ≠ k2) :
    getField (addField t k2 v) k = getField t k := by
  cases t <;> simp [isObj] at ht
  simp [addField, getField, lookupField_append_of_ne _ _ _ _ h]

theorem jsOr_ne_undef (a b : JsVal) (hb : b ≠ .undef) : jsOr a b ≠ .undef := by
  unfold jsOr
  by_cases h : truthy a = true
  · simp [h]
    cases a <;> simp_all [truthy]
  · simp [h, hb]

theorem upperStr_eq_empty_iff (s : String) : upperStr s = "" ↔ s = "" := by
  cases s with
  | mk data =>
    cases data with
    | nil => simp [upperStr]
    | cons c cs => simp [upperStr, String.ext_iff]

theorem getField_insight (d v : JsVal) :
    getField ((formatTokenDetails d).addField "ai_insight" v) "ai_insight" = v := by
  simp [formatTokenDetails, addField, getField, lookupField]

/-- C1: for every token identifier and every behavior of the completion API,
if the upstream market-data fetch for the detail operation fails (the axios
promise rejects), `getTokenDetails` returns null and the commentary
generator `getAiAnalysis` is never invoked. -/
theorem getTokenDetails_fetch_error_null_no_generator :
    ∀ (tokenId : String) (complete : String → GenOutcome),
      getTokenDetailsTr tokenId (Except.error ()) complete = (none, false) ∧
      getTokenDetails tokenId (Except.error ()) complete = none := by
  intro tokenId complete
  exact ⟨rfl, rfl⟩

/-- C3: the token-list operation never throws to its caller: it returns a
value on every upstream outcome, returns `[]` on any transport error, and
returns `[]` on any body that is not an array (whose `.map` would throw
inside the `try` and land in the same catch); only a successful array body
yields the mapped normalization. -/
theorem fetchAiAgentTokens_total_error_empty :
    (∀ e : Unit, fetchAiAgentTokens (Except.error e) = []) ∧
    (∀ resp : Except Unit JsVal,
      fetchAiAgentTokens resp = [] ∨
      ∃ items, resp = Except.ok (.arr items) ∧
        fetchAiAgentTokens resp = items.map formatAiAgentToken) := by
  constructor
  · intro e; rfl
  · intro resp
    cases resp with
    | error e => exact Or.inl rfl
    | ok v =>
      cases v with
      | arr items => exact Or.inr ⟨items, rfl, rfl⟩
      | undef => exact Or.inl rfl
      | jnull => exact Or.inl rfl
      | num n => exact Or.inl rfl
      | str s => exact Or.inl rfl
      | obj fs => exact Or.inl rfl

/-- C4 counterexample: on the empty upstream record both normalizers emit
the key `id` with value `undefined` (a key JSON serialization would drop),
so it is false that every field of the normalized output is always mapped to
a defined value. -/
theorem format_id_undefined_on_empty_record :
    "id" ∈ objKeys (formatAiAgentToken (.obj [])) ∧
    getField (formatAiAgentToken (.obj [])) "id" = .undef ∧
    "id" ∈ objKeys (formatTokenDetails (.obj [])) ∧
    getField (formatTokenDetails (.obj [])) "id" = .undef := by
  refine ⟨by decide, ?_, by decide, ?_⟩ <;>
    simp [formatAiAgentToken, formatTokenDetails, getField, lookupField]

/-- C4 amended: for every well-formed upstream record, every field of the
normalized output other than `id` and `name` is present with a defined
(non-undefined) value — absence upstream is mapped to an explicit default —
while `id` and `name` are passed through unchanged and are undefined exactly
when absent upstream. -/
theorem format_all_fields_defined_except_id_name :
    (∀ t : JsVal, wfListToken t = true →
      ∀ k ∈ objKeys (formatAiAgentToken t), k ≠ "id" → k ≠ "name" →
        getField (formatAiAgentToken t) k ≠ .undef) ∧
    (∀ t : JsVal, wfDetailToken t = true →
      ∀ k ∈ objKeys (formatTokenDetails t), k ≠ "id" → k ≠ "name" →
        getField (formatTokenDetails t) k ≠ .undef) := by
  constructor
  · intro t _ k hk h1 h2
    simp [formatAiAgentToken, objKeys] at hk
    rcases hk with rfl|rfl|rfl|rfl|rfl|rfl|rfl|rfl|rfl|rfl|rfl|rfl|rfl|rfl|rfl|rfl|rfl|rfl|rfl|rfl
    all_goals first
      | exact absurd rfl h1
      | exact absurd rfl h2
      | (simp only [formatAiAgentToken, getField]
         simp only [lookupField]
         simp
         all_goals exact jsOr_ne_undef _ _ (by simp))
  · intro t _ k hk h1 h2
    simp [formatTokenDetails, objKeys] at hk
    rcases hk with rfl|rfl|rfl|rfl|rfl|rfl|rfl|rfl|rfl|rfl|rfl|rfl|rfl|rfl|rfl|rfl|rfl|rfl|rfl|rfl|rfl
    all_goals first
      | exact absurd rfl h1
      | exact absurd rfl h2
      | (simp only [formatTokenDetails, getField]
         simp only [lookupField]
         simp
         all_goals exact jsOr_ne_undef _ _ (by simp))

/-- Witness for the amended C4 theorem at concrete records: a list record
with only a symbol, and the empty detail record. -/
theorem format_all_fields_defined_except_id_name_witness :
    getField (formatAiAgentToken (.obj [("symbol", .str "btc")])) "symbol" ≠ .undef ∧
    getField (formatTokenDetails (.obj [])) "market_cap" ≠ .undef := by
  constructor
  · exact format_all_fields_defined_except_id_name.1
      (.obj [("symbol", .str "btc")]) (by decide) "symbol" (by decide)
      (by decide) (by decide)
  · exact format_all_fields_defined_except_id_name.2
      (.obj []) (by decide) "market_cap" (by decide) (by decide) (by decide)

/-- The numeric fields of the TokenSummary shape that default to `0`. -/
def summaryNumericKeys : List String :=
  ["current_price", "market_cap", "total_volume", "high_24h", "low_24h",
   "price_change_24h", "price_change_percentage_24h", "circulating_supply",
   "total_supply", "ath", "ath_change_percentage", "atl",
   "atl_change_percentage"]

/-- C6: for every well-formed upstream list record whose optional numeric
fields are missing, the normalized TokenSummary carries `0` in their place,
while the nullable fields `market_cap_rank` and `max_supply` default to
`null`. -/
theorem formatAiAgentToken_defaults_on_missing :
    ∀ fs : List (String × JsVal),
      strLike (lookupField fs "symbol") = true →
      (∀ k ∈ summaryNumericKeys, lookupField fs k = .undef) →
      lookupField fs "market_cap_rank" = .undef →
      lookupField fs "max_supply" = .undef →
      (∀ k ∈ summaryNumericKeys,
        getField (formatAiAgentToken (.obj fs)) k = .num 0) ∧
      getField (formatAiAgentToken (.obj fs)) "market_cap_rank" = .jnull ∧
      getField (formatAiAgentToken (.obj fs)) "max_supply" = .jnull := by
  intro fs _ habs hr hm
  refine ⟨?_, ?_, ?_⟩
  · intro k hk
    have h0 : lookupField fs k = .undef := habs k hk
    simp [summaryNumericKeys] at hk
    rcases hk with rfl|rfl|rfl|rfl|rfl|rfl|rfl|rfl|rfl|rfl|rfl|rfl|rfl
    all_goals simp [formatAiAgentToken, getField, lookupField, h0, jsOr, truthy]
  · simp [formatAiAgentToken, getField, lookupField, jsOr, truthy, hr]
  · simp [formatAiAgentToken, getField, lookupField, jsOr, truthy, hm]

/-- Witness for the C6 theorem at the empty upstream record. -/
theorem formatAiAgentToken_defaults_on_missing_witness :
    (∀ k ∈ summaryNumericKeys,
      getField (formatAiAgentToken (.obj [])) k = .num 0) ∧
    getField (formatAiAgentToken (.obj [])) "market_cap_rank" = .jnull ∧
    getField (formatAiAgentToken (.obj [])) "max_supply" = .jnull :=
  formatAiAgentToken_defaults_on_missing [] rfl (fun k _ => rfl) rfl rfl

/-- C7 counterexample: an upstream record whose symbol is present but equal
to the empty string is normalized to "N/A", not to the upper-casing of that
symbol, so the claim fails as universally stated. -/
theorem format_symbol_empty_string_not_uppercased :
    getField (formatAiAgentToken (.obj [("symbol", .str "")])) "symbol" = .str "N/A" ∧
    getField (formatTokenDetails (.obj [("symbol", .str "")])) "symbol" = .str "N/A" ∧
    JsVal.str "N/A" ≠ .str (upperStr "") := by
  refine ⟨?_, ?_, by decide⟩ <;>
    simp [formatAiAgentToken, formatTokenDetails, getField, lookupField,
      upperCall, jsOr, truthy, upperStr]

/-- C7 amended: in both normalizers the output symbol equals the upstream
symbol upper-cased whenever the upstream symbol is a non-empty string, and
equals "N/A" whenever the upstream symbol is absent, null, or the empty
string. -/
theorem format_symbol_uppercase_or_na :
    (∀ (t : JsVal) (s : String), t.getField "symbol" = .str s → s ≠ "" →
      getField (formatAiAgentToken t) "symbol" = .str (upperStr s) ∧
      getField (formatTokenDetails t) "symbol" = .str (upperStr s)) ∧
    (∀ t : JsVal,
      t.getField "symbol" = .undef ∨ t.getField "symbol" = .jnull ∨
        t.getField "symbol" = .str "" →
      getField (formatAiAgentToken t) "symbol" = .str "N/A" ∧
      getField (formatTokenDetails t) "symbol" = .str "N/A") := by
  constructor
  · intro t s hs hne
    have hu : upperStr s ≠ "" := fun hh => hne ((upperStr_eq_empty_iff s).1 hh)
    constructor
    · simp only [formatAiAgentToken]
      rw [hs]
      simp [getField, lookupField, upperCall, jsOr, truthy, bne_iff_ne, hu]
    · simp only [formatTokenDetails]
      rw [hs]
      simp [getField, lookupField, upperCall, jsOr, truthy, bne_iff_ne, hu]
  · intro t h
    rcases h with h|h|h <;> constructor
    all_goals first
      | (simp only [formatAiAgentToken]
         rw [h]
         simp [getField, lookupField, upperCall, jsOr, truthy,
           upperStr_eq_empty_iff])
      | (simp only [formatTokenDetails]
         rw [h]
         simp [getField, lookupField, upperCall, jsOr, truthy,
           upperStr_eq_empty_iff])

/-- Witness for the amended C7 theorem: a lower-case symbol is upper-cased,
and an absent symbol becomes "N/A". -/
theorem format_symbol_uppercase_or_na_witness :
    (getField (formatAiAgentToken (.obj [("symbol", .str "btc")])) "symbol"
        = .str (upperStr "btc") ∧
      getField (formatTokenDetails (.obj [("symbol", .str "btc")])) "symbol"
        = .str (upperStr "btc")) ∧
    (getField (formatAiAgentToken (.obj [])) "symbol" = .str "N/A" ∧
      getField (formatTokenDetails (.obj [])) "symbol" = .str "N/A") := by
  constructor
  · exact format_symbol_uppercase_or_na.1 (.obj [("symbol", .str "btc")])
      "btc" rfl (by decide)
  · exact format_symbol_uppercase_or_na.2 (.obj []) (Or.inl rfl)

/-- C8: for every well-formed upstream detail record, the `chart_data` field
of the normalized TokenDetail is an array of length at most 24; it equals
the last 24 points of the upstream 7-day sparkline when one is present, and
is empty when the sparkline is absent. -/
theorem formatTokenDetails_chart_data_last24 :
    ∀ t : JsVal, arrLike (sparkVal t) = true →
      ∃ xs : List JsVal,
        getField (formatTokenDetails t) "chart_data" = .arr xs ∧
        xs.length ≤ 24 ∧
        (∀ ps, sparkVal t = .arr ps → xs = ps.drop (ps.length - 24)) ∧
        (sparkVal t = .undef ∨ sparkVal t = .jnull → xs = []) := by
  intro t ha
  have hcd : getField (formatTokenDetails t) "chart_data"
      = jsOr (sliceLast24 (sparkVal t)) (.arr []) := by
    simp only [formatTokenDetails, sparkVal]
    simp [getField, lookupField]
  rcases hv : sparkVal t with _ | _ | n | s | ps | fs
  · exact ⟨[], by rw [hcd, hv]; simp [sliceLast24, jsOr, truthy],
      by simp, by simp [hv], fun _ => rfl⟩
  · exact ⟨[], by rw [hcd, hv]; simp [sliceLast24, jsOr, truthy],
      by simp, by simp [hv], fun _ => rfl⟩
  · rw [hv] at ha; simp [arrLike] at ha
  · rw [hv] at ha; simp [arrLike] at ha
  · refine ⟨ps.drop (ps.length - 24),
      by rw [hcd, hv]; simp [sliceLast24, jsOr, truthy], ?_, ?_, ?_⟩
    · simp only [List.length_drop]
      omega
    · intro qs hqs
      obtain rfl := JsVal.arr.inj hqs
      rfl
    · intro h
      rcases h with h|h <;> exact absurd h (by simp)
  · rw [hv] at ha; simp [arrLike] at ha

/-- Witness for the C8 theorem at a concrete record carrying a two-point
sparkline. -/
theorem formatTokenDetails_chart_data_last24_witness :
    ∃ xs : List JsVal,
      getField (formatTokenDetails (.obj [("market_data", .obj [("sparkline_7d",
          .obj [("price", .arr [.num 1, .num 2])])])])) "chart_data" = .arr xs ∧
      xs.length ≤ 24 ∧
      (∀ ps, sparkVal (.obj [("market_data", .obj [("sparkline_7d",
          .obj [("price", .arr [.num 1, .num 2])])])]) = .arr ps →
        xs = ps.drop (ps.length - 24)) ∧
      (sparkVal (.obj [("market_data", .obj [("sparkline_7d",
          .obj [("price", .arr [.num 1, .num 2])])])]) = .undef ∨
        sparkVal (.obj [("market_data", .obj [("sparkline_7d",
          .obj [("price", .arr [.num 1, .num 2])])])]) = .jnull → xs = []) :=
  formatTokenDetails_chart_data_last24
    (.obj [("market_data", .obj [("sparkline_7d",
      .obj [("price", .arr [.num 1, .num 2])])])]) (by decide)

/-- C2: for every successfully fetched well-formed token, provided the
generated text is not itself verbatim one of the two fallback strings, the
returned record's `ai_insight` equals "AI analysis unavailable." exactly
when the completion call fails (the generator's own catch fallback), and
equals "No AI insight available." exactly when the generator returns
without error but with a falsy content; the two fallback strings are
distinct, arising from distinct layers. -/
theorem getTokenDetails_ai_insight_fallback_layers :
    ∀ (tokenId : String) (d : JsVal) (complete : String → GenOutcome),
      wfDetailToken d = true →
      (∀ c, complete (buildPrompt (formatTokenDetails d)) = .ok c →
        c ≠ .str "AI analysis unavailable." ∧ c ≠ .str "No AI insight available.") →
      ∃ r, getTokenDetails tokenId (Except.ok d) complete = some r ∧
        (getField r "ai_insight" = .str "AI analysis unavailable." ↔
          complete (buildPrompt (formatTokenDetails d)) = .err) ∧
        (getField r "ai_insight" = .str "No AI insight available." ↔
          ∃ c, complete (buildPrompt (formatTokenDetails d)) = .ok c ∧
            truthy c = false) ∧
        ("AI analysis unavailable." : String) ≠ "No AI insight available." := by
  intro tokenId d complete _ hgen
  refine ⟨(formatTokenDetails d).addField "ai_insight"
      (jsOr (getAiAnalysis (formatTokenDetails d) complete)
        (.str "No AI insight available.")), rfl, ?_⟩
  rw [getField_insight]
  rcases hg : complete (buildPrompt (formatTokenDetails d)) with c | _
  · obtain ⟨hc1, hc2⟩ := hgen c hg
    by_cases ht : truthy c = true
    · have hins : jsOr (getAiAnalysis (formatTokenDetails d) complete)
          (.str "No AI insight available.") = c := by
        simp [getAiAnalysis, hg, jsOr, ht]
      rw [hins]
      refine ⟨⟨fun hh => absurd hh hc1, fun hh => by simp at hh⟩,
        ⟨fun hh => absurd hh hc2, ?_⟩, by decide⟩
      rintro ⟨c2, hc2eq, ht2⟩
      obtain rfl := GenOutcome.ok.inj hc2eq
      rw [ht] at ht2
      cases ht2
    · have hins : jsOr (getAiAnalysis (formatTokenDetails d) complete)
          (.str "No AI insight available.") = .str "No AI insight available." := by
        simp [getAiAnalysis, hg, jsOr, ht]
      rw [hins]
      refine ⟨⟨fun hh => by simp at hh, fun hh => by simp at hh⟩,
        ⟨fun _ => ⟨c, rfl, by simpa using ht⟩, fun _ => rfl⟩, by decide⟩
  · have hins : jsOr (getAiAnalysis (formatTokenDetails d) complete)
        (.str "No AI insight available.") = .str "AI analysis unavailable." := by
      simp [getAiAnalysis, hg, jsOr, truthy]
    rw [hins]
    refine ⟨⟨fun _ => rfl, fun _ => rfl⟩,
      ⟨fun hh => by simp at hh, ?_⟩, by decide⟩
    rintro ⟨c2, hc2eq, _⟩
    cases hc2eq

/-- Witness for the C2 theorem: empty upstream record, completion call that
always throws. -/
theorem getTokenDetails_ai_insight_fallback_layers_witness :
    ∃ r, getTokenDetails "bitcoin" (Except.ok (.obj []))
        (fun _ => GenOutcome.err) = some r ∧
      (getField r "ai_insight" = .str "AI analysis unavailable." ↔
        (fun _ => GenOutcome.err) (buildPrompt (formatTokenDetails (.obj [])))
          = GenOutcome.err) ∧
      (getField r "ai_insight" = .str "No AI insight available." ↔
        ∃ c, (fun _ => GenOutcome.err) (buildPrompt (formatTokenDetails (.obj [])))
          = GenOutcome.ok c ∧ truthy c = false) ∧
      ("AI analysis unavailable." : String) ≠ "No AI insight available." :=
  getTokenDetails_ai_insight_fallback_layers "bitcoin" (.obj [])
    (fun _ => GenOutcome.err) (by decide) (fun c h => by simp at h)

/-- C9: for every token whose detail fetch succeeds, the record returned by
the detail operation agrees with the normalized TokenDetail on every field
other than `ai_insight`, which the normalized record does not carry: the
result's keys are exactly the normalized keys plus `ai_insight`, so the
attachment alters or drops no normalized field. -/
theorem getTokenDetails_frame_only_adds_ai_insight :
    ∀ (tokenId : String) (d : JsVal) (complete : String → GenOutcome)
      (k : String), k ≠ "ai_insight" →
      ∃ r, getTokenDetails tokenId (Except.ok d) complete = some r ∧
        getField r k = getField (formatTokenDetails d) k ∧
        getField (formatTokenDetails d) "ai_insight" = .undef ∧
        objKeys r = objKeys (formatTokenDetails d) ++ ["ai_insight"] := by
  intro tokenId d complete k hk
  refine ⟨_, rfl, ?_, ?_, ?_⟩
  · exact getField_addField_of_ne _ _ _ _
      (by simp [formatTokenDetails, isObj]) hk
  · simp [formatTokenDetails, getField, lookupField]
  · simp [formatTokenDetails, addField, objKeys]

/-- Witness for the C9 theorem at the empty upstream record and the key
`id`. -/
theorem getTokenDetails_frame_only_adds_ai_insight_witness :
    ∃ r, getTokenDetails "bitcoin" (Except.ok (.obj []))
        (fun _ => GenOutcome.err) = some r ∧
      getField r "id" = getField (formatTokenDetails (.obj [])) "id" ∧
      getField (formatTokenDetails (.obj [])) "ai_insight" = .undef ∧
      objKeys r = objKeys (formatTokenDetails (.obj [])) ++ ["ai_insight"] :=
  getTokenDetails_frame_only_adds_ai_insight "bitcoin" (.obj [])
    (fun _ => GenOutcome.err) "id" (by decide)

/-- C5 (code bug): the commentary generator's prompt reads `token.high_24h`
and `token.low_24h`, but the normalized TokenDetail record it is invoked
with defines no such fields: for every upstream record both reads yield
`undefined` and the prompt's 24h High/Low line renders as the literal text
"$undefined / $undefined". -/
theorem buildPrompt_high_low_read_undefined :
    ∀ d : JsVal,
      "high_24h" ∉ objKeys (formatTokenDetails d) ∧
      "low_24h" ∉ objKeys (formatTokenDetails d) ∧
      getField (formatTokenDetails d) "high_24h" = .undef ∧
      getField (formatTokenDetails d) "low_24h" = .undef ∧
      buildPrompt (formatTokenDetails d) =
        promptPre (formatTokenDetails d) ++
          "**24h High/Low**: $undefined / $undefined" ++
          promptPost (formatTokenDetails d) := by
  intro d
  have h1 : getField (formatTokenDetails d) "high_24h" = .undef := by
    simp [formatTokenDetails, getField, lookupField]
  have h2 : getField (formatTokenDetails d) "low_24h" = .undef := by
    simp [formatTokenDetails, getField, lookupField]
  have hHL : promptHighLow (formatTokenDetails d)
      = "**24h High/Low**: $undefined / $undefined" := by
    rw [promptHighLow, h1, h2]
    simp [interp]
  refine ⟨?_, ?_, h1, h2, ?_⟩
  · simp [formatTokenDetails, objKeys]
  · simp [formatTokenDetails, objKeys]
  · rw [buildPrompt, hHL]

/-- C10: default substitution in both normalizers tests truthiness, not
absence: a record whose `market_cap_rank` is `0`, whose `symbol` and
`last_updated` are empty strings, and whose current-price field is an
explicit `null`, is normalized to `null`, "N/A", "N/A" and `0`
respectively — and its whole normalized output equals that of the empty
record, exactly as if those fields were missing. -/
theorem format_defaults_test_truthiness_not_absence :
    getField (formatAiAgentToken (.obj [("market_cap_rank", .num 0),
      ("symbol", .str ""), ("last_updated", .str ""),
      ("current_price", .jnull)])) "market_cap_rank" = .jnull ∧
    getField (formatAiAgentToken (.obj [("market_cap_rank", .num 0),
      ("symbol", .str ""), ("last_updated", .str ""),
      ("current_price", .jnull)])) "symbol" = .str "N/A" ∧
    getField (formatAiAgentToken (.obj [("market_cap_rank", .num 0),
      ("symbol", .str ""), ("last_updated", .str ""),
      ("current_price", .jnull)])) "last_updated" = .str "N/A" ∧
    getField (formatAiAgentToken (.obj [("market_cap_rank", .num 0),
      ("symbol", .str ""), ("last_updated", .str ""),
      ("current_price", .jnull)])) "current_price" = .num 0 ∧
    formatAiAgentToken (.obj [("market_cap_rank", .num 0),
      ("symbol", .str ""), ("last_updated", .str ""),
      ("current_price", .jnull)]) = formatAiAgentToken (.obj []) ∧
    getField (formatTokenDetails (.obj [("market_cap_rank", .num 0),
      ("symbol", .str ""), ("last_updated", .str ""),
      ("market_data", .obj [("current_price", .obj [("usd", .jnull)])])]))
      "market_cap_rank" = .jnull ∧
    getField (formatTokenDetails (.obj [("market_cap_rank", .num 0),
      ("symbol", .str ""), ("last_updated", .str ""),
      ("market_data", .obj [("current_price", .obj [("usd", .jnull)])])]))
      "symbol" = .str "N/A" ∧
    getField (formatTokenDetails (.obj [("market_cap_rank", .num 0),
      ("symbol", .str ""), ("last_updated", .str ""),
      ("market_data", .obj [("current_price", .obj [("usd", .jnull)])])]))
      "last_updated" = .str "N/A" ∧
    getField (formatTokenDetails (.obj [("market_cap_rank", .num 0),
      ("symbol", .str ""), ("last_updated", .str ""),
      ("market_data", .obj [("current_price", .obj [("usd", .jnull)])])]))
      "current_price" = .num 0 ∧
    formatTokenDetails (.obj [("market_cap_rank", .num 0),
      ("symbol", .str ""), ("last_updated", .str ""),
      ("market_data", .obj [("current_price", .obj [("usd", .jnull)])])])
      = formatTokenDetails (.obj []) := by
  decide
